import Mathlib

/-!
Verification of the gatorbacon/pickem scoring and odds-points engine.

The TypeScript sources are embedded shallowly: JavaScript numbers are
modelled as exact rationals (`ℚ`), `Math.floor` as `Int.floor`,
`Math.round` as `fun x => ⌊x + 1/2⌋` (JavaScript rounds ties toward
positive infinity), and the literal `0.1` as the rational `1/10`.
Fields of result objects keep the source names.
-/

namespace Pickem

/-- JavaScript `Math.round`: rounds to the nearest integer, ties toward
positive infinity. -/
def jsRound (x : ℚ) : ℤ := ⌊x + 1/2⌋

/-- `Math.round(x * 10) / 10`: round to one decimal place, as done
throughout the Pick 6 engine. -/
def roundTo1 (x : ℚ) : ℚ := (jsRound (x * 10) : ℚ) / 10

/-- The `favorite` placeholder side stored on match results. -/
inductive Side where
  | A
  | B
  deriving DecidableEq, Repr

/-- Result record of the legacy ratio rule (`OddsCalculation` in
`src/unnamed/part_000`). -/
structure OddsCalculation where
  favorite_points : ℚ
  underdog_points : ℚ
  odds_ratio : ℚ
  favorite : Side
  deriving DecidableEq, Repr

/-- Result record of `calculateMatchPointsFromAmerican`
(`OddsCalculation & { americanOdds: number }`). -/
structure AmericanOddsCalculation where
  favorite_points : ℚ
  underdog_points : ℚ
  odds_ratio : ℚ
  favorite : Side
  americanOdds : ℚ
  deriving DecidableEq, Repr

/-- `americanOddsToDecimal` from `src/unnamed/part_000` lines 11-22. -/
def americanOddsToDecimal (americanOdds : ℚ) : ℚ :=
  if americanOdds = 0 then 1
  else if americanOdds > 0 then americanOdds / 100 + 1
  else 100 / |americanOdds| + 1

/-- `decimalToAmericanOdds` from `src/unnamed/part_000` lines 27-38. -/
def decimalToAmericanOdds (decimal : ℚ) : ℚ :=
  if decimal = 1 then 0
  else if decimal ≥ 2 then (jsRound ((decimal - 1) * 100) : ℚ)
  else (jsRound (-100 / (decimal - 1)) : ℚ)

/-- `americanOddsToImpliedProbability` from `src/unnamed/part_000`
lines 43-51. -/
def americanOddsToImpliedProbability (americanOdds : ℚ) : ℚ :=
  if americanOdds > 0 then 100 / (americanOdds + 100)
  else |americanOdds| / (|americanOdds| + 100)

/-- `calculateMatchPointsFromAmerican` from `src/unnamed/part_000`
lines 58-107 (balanced expected-value rule; `basePoints` defaults to
1000 at call sites). -/
def calculateMatchPointsFromAmerican (americanOdds : ℚ) (basePoints : ℚ) :
    AmericanOddsCalculation :=
  let decimalOdds := americanOddsToDecimal americanOdds
  if americanOdds = 0 ∨ |americanOdds| ≤ 5 then
    { favorite_points := basePoints
      underdog_points := basePoints
      odds_ratio := 1
      favorite := Side.A
      americanOdds := 0 }
  else if americanOdds < 0 then
    let favoriteWinProbability := americanOddsToImpliedProbability americanOdds
    let underdogWinProbability := 1 - favoriteWinProbability
    let underdog_points : ℚ := basePoints
    let favorite_points : ℚ :=
      (⌊underdogWinProbability * basePoints / favoriteWinProbability⌋ : ℚ)
    { favorite_points := max (⌊basePoints * (1/10)⌋ : ℚ) favorite_points
      underdog_points := max (⌊basePoints * (1/10)⌋ : ℚ) underdog_points
      odds_ratio := decimalOdds
      favorite := Side.A
      americanOdds := americanOdds }
  else
    let underdogWinProbability := americanOddsToImpliedProbability americanOdds
    let favoriteWinProbability := 1 - underdogWinProbability
    let favorite_points : ℚ := basePoints
    let underdog_points : ℚ :=
      (⌊favoriteWinProbability * basePoints / underdogWinProbability⌋ : ℚ)
    { favorite_points := max (⌊basePoints * (1/10)⌋ : ℚ) favorite_points
      underdog_points := max (⌊basePoints * (1/10)⌋ : ℚ) underdog_points
      odds_ratio := decimalOdds
      favorite := Side.A
      americanOdds := americanOdds }

/-- `calculateMatchPoints` from `src/unnamed/part_000` lines 113-128
(ratio rule: underdog pinned to 1000). -/
def calculateMatchPoints (oddsRatio : ℚ) : OddsCalculation :=
  let underdog_points : ℚ := 1000
  let normalizedOdds := max 1 oddsRatio
  let favorite_points : ℚ := max 50 (⌊1000 / normalizedOdds⌋ : ℚ)
  { favorite_points := favorite_points
    underdog_points := underdog_points
    odds_ratio := normalizedOdds
    favorite := Side.A }

/-- `validateAmericanOdds` result shape `{ isValid, error? }`. -/
structure ValidationResult where
  isValid : Bool
  error : Option String
  deriving DecidableEq, Repr

/-- `validateAmericanOdds` from `src/unnamed/part_000` lines 277-295. -/
def validateAmericanOdds (odds : ℚ) : ValidationResult :=
  if odds = 0 then { isValid := true, error := none }
  else if odds > 0 ∧ odds < 100 then
    { isValid := false
      error := some "Positive odds must be 100 or greater (e.g., +100, +150)" }
  else if odds < 0 ∧ odds > -100 then
    { isValid := false
      error := some "Negative odds must be -100 or less (e.g., -100, -150)" }
  else if |odds| > 10000 then
    { isValid := false, error := some "Odds cannot exceed ±10000" }
  else { isValid := true, error := none }

/-! ## Pick 6 scoring engine (`src/test_pick6_query.sql`, embedded TS) -/

/-- Finish types of a Pick 6 selection. -/
inductive FinishType where
  | decision
  | ko_tko
  | submission
  deriving DecidableEq, Repr

/-- `Pick6Scoring` result record. -/
structure Pick6Scoring where
  base_points : ℚ
  finish_bonus : ℚ
  underdog_bonus : ℚ
  double_down_multiplier : ℚ
  total_points : ℚ
  deriving DecidableEq, Repr

/-- `calculateBasePoints` from `src/test_pick6_query.sql` lines 45-53. -/
def calculateBasePoints (americanOdds : ℚ) : ℚ :=
  if americanOdds > 0 then americanOdds
  else roundTo1 (10000 / |americanOdds|)

/-- Division with an explicit zero-divisor guard, used to expose the
division-by-zero hazard in `calculateBasePoints`. -/
def checkedDiv (x y : ℚ) : Option ℚ :=
  if y = 0 then none else some (x / y)

/-- `calculateBasePoints` with its division guarded: `none` exactly when
the divisor `|americanOdds|` is zero. -/
def calculateBasePointsChecked (americanOdds : ℚ) : Option ℚ :=
  if americanOdds > 0 then some americanOdds
  else (checkedDiv 10000 |americanOdds|).map roundTo1

/-- `calculateFinishBonus` from `src/test_pick6_query.sql` lines 58-60. -/
def calculateFinishBonus (finishType : Option FinishType) : ℚ :=
  match finishType with
  | none => 0
  | some FinishType.decision => 0
  | some _ => 50

/-- `calculateUnderdogBonus` from `src/test_pick6_query.sql` lines 65-67. -/
def calculateUnderdogBonus (americanOdds : ℚ) (basePoints : ℚ) : ℚ :=
  if americanOdds ≥ 100 then (jsRound (basePoints * (1/10) * 10) : ℚ) / 10
  else 0

/-- `calculatePick6Points` from `src/test_pick6_query.sql` lines 72-110.
Arguments follow the destructured input object
`{americanOdds, isWinner, finishType, isDoubleDown}`. -/
def calculatePick6Points (americanOdds : ℚ) (isWinner : Bool)
    (finishType : Option FinishType) (isDoubleDown : Bool) : Pick6Scoring :=
  if !isWinner then
    { base_points := 0
      finish_bonus := 0
      underdog_bonus := 0
      double_down_multiplier := 1
      total_points := 0 }
  else
    let basePoints := calculateBasePoints americanOdds
    let finishBonus := calculateFinishBonus finishType
    let underdogBonus := calculateUnderdogBonus americanOdds basePoints
    let doubleDownMultiplier : ℚ := if isDoubleDown then 2 else 1
    let subtotal := basePoints + finishBonus + underdogBonus
    { base_points := basePoints
      finish_bonus := finishBonus
      underdog_bonus := underdogBonus
      double_down_multiplier := doubleDownMultiplier
      total_points := roundTo1 (subtotal * doubleDownMultiplier) }

/-- `calculatePotentialPoints` from `src/test_pick6_query.sql`
lines 115-123. -/
def calculatePotentialPoints (americanOdds : ℚ) (isDoubleDown : Bool) : ℚ :=
  let basePoints := calculateBasePoints americanOdds
  let maxFinishBonus : ℚ := 50
  let maxUnderdogBonus : ℚ :=
    if americanOdds ≥ 100 then (jsRound (basePoints * (1/10) * 10) : ℚ) / 10
    else 0
  let doubleDownMultiplier : ℚ := if isDoubleDown then 2 else 1
  roundTo1 ((basePoints + maxFinishBonus + maxUnderdogBonus) * doubleDownMultiplier)

/-- A Pick 6 entry pick; the validator only inspects `match_id`. -/
structure Pick6Pick where
  match_id : ℕ
  deriving DecidableEq, Repr

/-- `validatePick6Entry` result shape `{ isValid, errors[] }`. -/
structure Pick6ValidationResult where
  isValid : Bool
  errors : List String
  deriving DecidableEq, Repr

/-- Error message pushed when the pick count is wrong. -/
def pickCountError (requiredPickCount : ℕ) : String :=
  "Must select exactly " ++ toString requiredPickCount ++ " fighters"

/-- Error message pushed when two picks share a match. -/
def duplicateMatchError : String :=
  "Cannot select multiple fighters from the same fight"

/-- `validatePick6Entry` from `src/test_pick6_query.sql` lines 128-149.
The `new Set(matchIds).size !== matchIds.length` duplicate test is the
complement of `List.Nodup`. -/
def validatePick6Entry (picks : List Pick6Pick) (requiredPickCount : ℕ) :
    Pick6ValidationResult :=
  let countErrors :=
    if picks.length ≠ requiredPickCount then [pickCountError requiredPickCount]
    else []
  let matchIds := picks.map (·.match_id)
  let errors :=
    countErrors ++ (if ¬ matchIds.Nodup then [duplicateMatchError] else [])
  { isValid := errors.isEmpty
    errors := errors }

/-! ## Helper lemmas about the rounding primitives -/

theorem jsRound_intCast (n : ℤ) : jsRound (n : ℚ) = n := by
  unfold jsRound
  rw [Int.floor_int_add]
  norm_num

theorem jsRound_mono {x y : ℚ} (h : x ≤ y) : jsRound x ≤ jsRound y :=
  Int.floor_le_floor (by linarith)

theorem jsRound_nonneg {x : ℚ} (h : 0 ≤ x) : 0 ≤ jsRound x :=
  Int.floor_nonneg.2 (by linarith)

theorem roundTo1_mono {x y : ℚ} (h : x ≤ y) : roundTo1 x ≤ roundTo1 y := by
  unfold roundTo1
  have := jsRound_mono (mul_le_mul_of_nonneg_right h (by norm_num : (0:ℚ) ≤ 10))
  have hc : ((jsRound (x * 10) : ℤ) : ℚ) ≤ ((jsRound (y * 10) : ℤ) : ℚ) := by
    exact_mod_cast this
  linarith

theorem roundTo1_nonneg {x : ℚ} (h : 0 ≤ x) : 0 ≤ roundTo1 x := by
  unfold roundTo1
  have := jsRound_nonneg (by linarith : (0:ℚ) ≤ x * 10)
  have hc : (0 : ℚ) ≤ ((jsRound (x * 10) : ℤ) : ℚ) := by exact_mod_cast this
  linarith

theorem calculateBasePoints_nonneg (o : ℚ) :
    0 ≤ calculateBasePoints o := by
  unfold calculateBasePoints
  split_ifs with h
  · linarith
  · exact roundTo1_nonneg (div_nonneg (by norm_num) (abs_nonneg o))

theorem calculateFinishBonus_nonneg (ft : Option FinishType) :
    0 ≤ calculateFinishBonus ft := by
  unfold calculateFinishBonus
  rcases ft with _ | ft
  · norm_num
  · rcases ft <;> norm_num

theorem calculateFinishBonus_le (ft : Option FinishType) :
    calculateFinishBonus ft ≤ 50 := by
  unfold calculateFinishBonus
  rcases ft with _ | ft
  · norm_num
  · rcases ft <;> norm_num

theorem calculateUnderdogBonus_nonneg {o b : ℚ} (hb : 0 ≤ b) :
    0 ≤ calculateUnderdogBonus o b := by
  unfold calculateUnderdogBonus
  split_ifs with h
  · have := jsRound_nonneg (by linarith : (0:ℚ) ≤ b * (1/10) * 10)
    have hc : (0 : ℚ) ≤ ((jsRound (b * (1/10) * 10) : ℤ) : ℚ) := by exact_mod_cast this
    linarith
  · exact le_refl 0

/-! ## Claim-side probability formulas

The balance claims (C1) state the fairness equation with the implied
probabilities spelled out; these mirror the claim text, to be compared
with the code functions. -/

/-- Favorite win probability as the claim words it: `|o|/(|o|+100)` for
negative odds, the complement of `100/(o+100)` for positive odds. -/
def claimFavoriteWinProbability (o : ℤ) : ℚ :=
  if o < 0 then (|o| : ℚ) / ((|o| : ℚ) + 100) else 1 - 100 / ((o : ℚ) + 100)

/-- Underdog win probability as the claim words it. -/
def claimUnderdogWinProbability (o : ℤ) : ℚ :=
  if o < 0 then 1 - (|o| : ℚ) / ((|o| : ℚ) + 100) else 100 / ((o : ℚ) + 100)

/-! ## Claim theorems -/

/-- C9: for every oddsRatio, `calculateMatchPoints` returns
`underdog_points = 1000`, `odds_ratio = max 1 oddsRatio`, and
`favorite_points = max 50 ⌊1000 / max 1 oddsRatio⌋`; in particular
`calculateMatchPoints 9` gives favorite 111 / underdog 1000, and
`calculateMatchPoints 0.5` normalizes the ratio to 1 giving
favorite 1000. -/
theorem c9_ratio_rule_formula :
    (∀ r : ℚ, calculateMatchPoints r =
      { favorite_points := max 50 (⌊(1000 : ℚ) / max 1 r⌋ : ℚ)
        underdog_points := 1000
        odds_ratio := max 1 r
        favorite := Side.A }) ∧
    calculateMatchPoints 9 =
      { favorite_points := 111, underdog_points := 1000, odds_ratio := 9,
        favorite := Side.A } ∧
    calculateMatchPoints (1/2) =
      { favorite_points := 1000, underdog_points := 1000, odds_ratio := 1,
        favorite := Side.A } := by
  refine ⟨fun r => rfl, ?_, ?_⟩
  · norm_num [calculateMatchPoints, Rat.floor_def]
  · norm_num [calculateMatchPoints, Rat.floor_def]

/-- C3 counterexample: a losing selection does NOT have
`double_down_multiplier = 0`; the code returns the neutral multiplier 1. -/
theorem c3_counterexample :
    ¬ (calculatePick6Points 150 false (some FinishType.ko_tko) true).double_down_multiplier = 0 := by
  norm_num [calculatePick6Points]

/-- C3 (amended): for every American odds, finish type and double-down
flag, a losing selection scores `base_points = finish_bonus =
underdog_bonus = total_points = 0` with the neutral
`double_down_multiplier = 1`, regardless of odds, bonuses, or
double-down. -/
theorem c3_losing_selection_scores_zero :
    ∀ (o : ℚ) (ft : Option FinishType) (dd : Bool),
      calculatePick6Points o false ft dd =
        { base_points := 0, finish_bonus := 0, underdog_bonus := 0,
          double_down_multiplier := 1, total_points := 0 } :=
  fun _ _ _ => rfl

/-- C10: `calculateBasePoints` is well defined exactly on nonzero odds:
with its division guarded, every nonzero input takes the unguarded
value, while input 0 falls into the favorites branch and divides by
`|0| = 0`; the legacy engine, by contrast, special-cases odds 0 in both
its conversion and its balanced-points function. -/
theorem c10_base_points_division_guard :
    (∀ o : ℚ, o ≠ 0 → calculateBasePointsChecked o = some (calculateBasePoints o)) ∧
    calculateBasePointsChecked 0 = none ∧
    americanOddsToDecimal 0 = 1 ∧
    calculateMatchPointsFromAmerican 0 1000 =
      { favorite_points := 1000, underdog_points := 1000, odds_ratio := 1,
        favorite := Side.A, americanOdds := 0 } := by
  refine ⟨?_, ?_, ?_, rfl⟩
  · intro o ho
    unfold calculateBasePointsChecked calculateBasePoints checkedDiv
    split_ifs with h₁ h₂
    · rfl
    · exact absurd (abs_eq_zero.mp h₂) ho
    · rfl
  · norm_num [calculateBasePointsChecked, checkedDiv]
  · norm_num [americanOddsToDecimal]

/-- C10 witness: the guarded division agrees with the unguarded code at
the concrete nonzero odds -200. -/
theorem c10_base_points_division_guard_witness :
    calculateBasePointsChecked (-200) = some (calculateBasePoints (-200)) :=
  c10_base_points_division_guard.1 (-200) (by norm_num)

/-- C8: `validateAmericanOdds` accepts exactly 0, [100, 10000] and
[-10000, -100]; a rejected input carries exactly the single error
message of the first violated rule; 50, -50 and 15000 fail while 0
passes. -/
theorem c8_validate_american_odds :
    (∀ odds : ℚ, (validateAmericanOdds odds).isValid = true ↔
      (odds = 0 ∨ (100 ≤ odds ∧ odds ≤ 10000) ∨ (-10000 ≤ odds ∧ odds ≤ -100))) ∧
    (∀ odds : ℚ, (validateAmericanOdds odds).isValid = true →
      (validateAmericanOdds odds).error = none) ∧
    (∀ odds : ℚ, 0 < odds → odds < 100 → validateAmericanOdds odds =
      { isValid := false
        error := some "Positive odds must be 100 or greater (e.g., +100, +150)" }) ∧
    (∀ odds : ℚ, odds < 0 → -100 < odds → validateAmericanOdds odds =
      { isValid := false
        error := some "Negative odds must be -100 or less (e.g., -100, -150)" }) ∧
    (∀ odds : ℚ, 10000 < odds ∨ odds < -10000 → validateAmericanOdds odds =
      { isValid := false, error := some "Odds cannot exceed ±10000" }) ∧
    (validateAmericanOdds 50).isValid = false ∧
    (validateAmericanOdds (-50)).isValid = false ∧
    (validateAmericanOdds 15000).isValid = false ∧
    (validateAmericanOdds 0).isValid = true := by
  refine ⟨?_, ?_, ?_, ?_, ?_, ?_, ?_, ?_, ?_⟩
  · intro odds
    unfold validateAmericanOdds
    split_ifs with h₁ h₂ h₃ h₄
    · exact iff_of_true rfl (Or.inl h₁)
    · refine iff_of_false (by simp) ?_
      rintro (h | ⟨hl, hr⟩ | ⟨hl, hr⟩)
      · exact h₁ h
      · linarith [h₂.2]
      · linarith [h₂.1]
    · refine iff_of_false (by simp) ?_
      rintro (h | ⟨hl, hr⟩ | ⟨hl, hr⟩)
      · exact h₁ h
      · linarith [h₃.1]
      · linarith [h₃.2]
    · refine iff_of_false (by simp) ?_
      rcases abs_cases odds with ⟨he, _⟩ | ⟨he, _⟩ <;> rw [he] at h₄
      · rintro (h | ⟨hl, hr⟩ | ⟨hl, hr⟩) <;> linarith
      · rintro (h | ⟨hl, hr⟩ | ⟨hl, hr⟩) <;> linarith
    · refine iff_of_true rfl ?_
      have habs := abs_le.mp (not_lt.mp h₄)
      rcases lt_trichotomy odds 0 with h | h | h
      · have : odds ≤ -100 := by
          by_contra hc
          exact h₃ ⟨h, by linarith [not_le.mp hc]⟩
        exact Or.inr (Or.inr ⟨habs.1, this⟩)
      · exact absurd h h₁
      · have : 100 ≤ odds := by
          by_contra hc
          exact h₂ ⟨h, by linarith [not_le.mp hc]⟩
        exact Or.inr (Or.inl ⟨this, habs.2⟩)
  · intro odds
    unfold validateAmericanOdds
    split_ifs <;> simp
  · intro odds h h2
    unfold validateAmericanOdds
    rw [if_neg (by linarith : ¬ odds = 0), if_pos ⟨h, h2⟩]
  · intro odds h h2
    unfold validateAmericanOdds
    rw [if_neg (by linarith : ¬ odds = 0),
      if_neg (by rintro ⟨hp, _⟩; linarith : ¬ (odds > 0 ∧ odds < 100)),
      if_pos ⟨h, h2⟩]
  · intro odds h
    unfold validateAmericanOdds
    rcases h with h | h
    · rw [if_neg (by linarith : ¬ odds = 0),
        if_neg (by rintro ⟨_, hl⟩; linarith : ¬ (odds > 0 ∧ odds < 100)),
        if_neg (by rintro ⟨hl, _⟩; linarith : ¬ (odds < 0 ∧ odds > -100)),
        if_pos (lt_abs.mpr (Or.inl h))]
    · rw [if_neg (by linarith : ¬ odds = 0),
        if_neg (by rintro ⟨hp, _⟩; linarith : ¬ (odds > 0 ∧ odds < 100)),
        if_neg (by rintro ⟨_, hr⟩; linarith : ¬ (odds < 0 ∧ odds > -100)),
        if_pos (lt_abs.mpr (Or.inr (by linarith)))]
  · norm_num [validateAmericanOdds]
  · norm_num [validateAmericanOdds]
  · norm_num [validateAmericanOdds]
  · norm_num [validateAmericanOdds]

/-- C8 witness: the first-violated-rule error is produced at the
concrete rejected input 50. -/
theorem c8_validate_american_odds_witness :
    validateAmericanOdds 50 =
      { isValid := false
        error := some "Positive odds must be 100 or greater (e.g., +100, +150)" } :=
  c8_validate_american_odds.2.2.1 50 (by norm_num) (by norm_num)

/-- C2: for every nonzero American odds, a winning selection scores
`base_points = o` for positive odds and `round(10000/|o|, 1)` for
negative odds, `finish_bonus = 50` exactly for a present non-decision
finish, `underdog_bonus = round(base_points/10, 1)` exactly when
`o ≥ 100`, `double_down_multiplier = 2` exactly when doubling down, and
`total_points = round((base+finish+underdog)*multiplier, 1)`; in
particular +150/win/ko_tko/double-down gives 150/50/15 and total 430. -/
theorem c2_pick6_scoring_formula (o : ℚ) (_ho : o ≠ 0) (ft : Option FinishType)
    (dd : Bool) :
    (calculatePick6Points o true ft dd).base_points =
      (if 0 < o then o else roundTo1 (10000 / |o|)) ∧
    (calculatePick6Points o true ft dd).finish_bonus =
      (if ft = some FinishType.ko_tko ∨ ft = some FinishType.submission then 50
       else 0) ∧
    (calculatePick6Points o true ft dd).underdog_bonus =
      (if 100 ≤ o then
        roundTo1 ((calculatePick6Points o true ft dd).base_points * (1/10))
       else 0) ∧
    (calculatePick6Points o true ft dd).double_down_multiplier =
      (if dd then 2 else 1) ∧
    (calculatePick6Points o true ft dd).total_points =
      roundTo1 (((calculatePick6Points o true ft dd).base_points +
          (calculatePick6Points o true ft dd).finish_bonus +
          (calculatePick6Points o true ft dd).underdog_bonus) *
        (calculatePick6Points o true ft dd).double_down_multiplier) ∧
    calculatePick6Points 150 true (some FinishType.ko_tko) true =
      { base_points := 150, finish_bonus := 50, underdog_bonus := 15,
        double_down_multiplier := 2, total_points := 430 } := by
  refine ⟨rfl, ?_, rfl, rfl, rfl, ?_⟩
  · rcases ft with _ | f
    · simp [calculatePick6Points, calculateFinishBonus]
    · rcases f <;> simp [calculatePick6Points, calculateFinishBonus]
  · norm_num [calculatePick6Points, calculateBasePoints, calculateFinishBonus,
      calculateUnderdogBonus, jsRound, roundTo1, Rat.floor_def]

/-- C2 witness: the formula instantiated at the concrete winning
selection with odds -200, decision finish and no double-down. -/
theorem c2_pick6_scoring_formula_witness :
    (calculatePick6Points (-200) true (some FinishType.decision) false).base_points =
      (if (0:ℚ) < -200 then -200 else roundTo1 (10000 / |(-200 : ℚ)|)) :=
  (c2_pick6_scoring_formula (-200) (by norm_num) (some FinishType.decision) false).1

/-- C5: for every nonzero American odds and double-down flag, the
potential points bound every realized Pick 6 score, with equality for a
winner with a non-decision finish. -/
theorem c5_potential_points_is_max (o : ℚ) (_ho : o ≠ 0) (isWinner : Bool)
    (ft : Option FinishType) (dd : Bool) :
    (calculatePick6Points o isWinner ft dd).total_points ≤
      calculatePotentialPoints o dd ∧
    (isWinner = true →
      ft = some FinishType.ko_tko ∨ ft = some FinishType.submission →
      (calculatePick6Points o isWinner ft dd).total_points =
        calculatePotentialPoints o dd) := by
  have hB := calculateBasePoints_nonneg o
  have hUB := calculateUnderdogBonus_nonneg (o := o) hB
  have hM : (0 : ℚ) ≤ (if dd then 2 else 1) := by split_ifs <;> norm_num
  have hpot : calculatePotentialPoints o dd =
      roundTo1 ((calculateBasePoints o + 50 + calculateUnderdogBonus o (calculateBasePoints o)) *
        (if dd then 2 else 1)) := rfl
  cases isWinner with
  | false =>
    constructor
    · show (0 : ℚ) ≤ calculatePotentialPoints o dd
      rw [hpot]
      exact roundTo1_nonneg (mul_nonneg (by linarith) hM)
    · intro h
      exact absurd h (by simp)
  | true =>
    have hkey : (calculatePick6Points o true ft dd).total_points =
        roundTo1 ((calculateBasePoints o + calculateFinishBonus ft +
          calculateUnderdogBonus o (calculateBasePoints o)) * (if dd then 2 else 1)) := rfl
    constructor
    · rw [hkey, hpot]
      refine roundTo1_mono (mul_le_mul_of_nonneg_right ?_ hM)
      linarith [calculateFinishBonus_le ft]
    · intro _ hft
      rcases hft with h | h <;> subst h <;> rfl

/-- C5 witness: realized and potential points coincide at the concrete
winning double-down ko_tko selection with odds +150. -/
theorem c5_potential_points_is_max_witness :
    (calculatePick6Points 150 true (some FinishType.ko_tko) true).total_points ≤
      calculatePotentialPoints 150 true ∧
    (true = true →
      some FinishType.ko_tko = some FinishType.ko_tko ∨
        some FinishType.ko_tko = some FinishType.submission →
      (calculatePick6Points 150 true (some FinishType.ko_tko) true).total_points =
        calculatePotentialPoints 150 true) :=
  c5_potential_points_is_max 150 (by norm_num) true (some FinishType.ko_tko) true

/-- C7: `validatePick6Entry` is valid exactly when the pick count
matches and no two picks share a match; the two checks are independent
and cumulative — when both are violated both error messages are
reported — and a duplicate match fails validation even with a correct
count. -/
theorem c7_validate_pick6_entry (picks : List Pick6Pick) (n : ℕ) :
    ((validatePick6Entry picks n).isValid = true ↔
      (picks.length = n ∧ (picks.map (fun p => p.match_id)).Nodup)) ∧
    (picks.length ≠ n → ¬ (picks.map (fun p => p.match_id)).Nodup →
      (pickCountError n ∈ (validatePick6Entry picks n).errors ∧
       duplicateMatchError ∈ (validatePick6Entry picks n).errors)) ∧
    (picks.length = n → ¬ (picks.map (fun p => p.match_id)).Nodup →
      (validatePick6Entry picks n).isValid = false) := by
  unfold validatePick6Entry
  split_ifs <;> refine ⟨?_, ?_, ?_⟩ <;> intros <;> simp_all

/-- C7 witness: an entry with two picks on the same match and the wrong
count reports both the pick-count error and the duplicate-match
error. -/
theorem c7_validate_pick6_entry_witness :
    pickCountError 6 ∈ (validatePick6Entry [⟨1⟩, ⟨1⟩] 6).errors ∧
    duplicateMatchError ∈ (validatePick6Entry [⟨1⟩, ⟨1⟩] 6).errors :=
  (c7_validate_pick6_entry [⟨1⟩, ⟨1⟩] 6).2.1 (by decide) (by decide)

/-! ## Branch reductions for the balanced expected-value rule -/

theorem balancedExpr_neg (a : ℚ) (ha : a < 0) :
    (1 - americanOddsToImpliedProbability a) * 1000 / americanOddsToImpliedProbability a
      = 100000 / (-a) := by
  unfold americanOddsToImpliedProbability
  rw [if_neg (by linarith : ¬ a > 0), abs_of_neg ha]
  have h1 : -a ≠ 0 := by linarith
  have h2 : -a + 100 ≠ 0 := by
    have : (0:ℚ) < -a + 100 := by linarith
    linarith
  have h0 : a ≠ 0 := ne_of_lt ha
  field_simp
  ring

theorem balancedExpr_pos (a : ℚ) (ha : 0 < a) :
    (1 - americanOddsToImpliedProbability a) * 1000 / americanOddsToImpliedProbability a
      = 10 * a := by
  unfold americanOddsToImpliedProbability
  rw [if_pos ha]
  have h2 : a + 100 ≠ 0 := by
    have : (0:ℚ) < a + 100 := by linarith
    linarith
  field_simp
  ring

theorem floor_base_tenth : (⌊(1000 : ℚ) * (1/10)⌋ : ℤ) = 100 := by
  norm_num [Rat.floor_def]

theorem calculateMatchPointsFromAmerican_neg (a : ℚ) (ha : a < -5) :
    (calculateMatchPointsFromAmerican a 1000).favorite_points
        = max 100 (⌊100000 / (-a)⌋ : ℚ) ∧
    (calculateMatchPointsFromAmerican a 1000).underdog_points = 1000 ∧
    (calculateMatchPointsFromAmerican a 1000).odds_ratio = 100 / (-a) + 1 := by
  have ha0 : a < 0 := by linarith
  have hcond : ¬ (a = 0 ∨ |a| ≤ 5) := by
    rw [abs_of_neg ha0]
    push_neg
    exact ⟨by linarith, by linarith⟩
  unfold calculateMatchPointsFromAmerican
  rw [if_neg hcond, if_pos ha0]
  refine ⟨?_, ?_, ?_⟩
  · show max (⌊(1000:ℚ) * (1/10)⌋ : ℚ)
        (⌊(1 - americanOddsToImpliedProbability a) * 1000 /
          americanOddsToImpliedProbability a⌋ : ℚ)
      = max 100 (⌊100000 / (-a)⌋ : ℚ)
    rw [balancedExpr_neg a ha0, floor_base_tenth]
    norm_num
  · show max (⌊(1000:ℚ) * (1/10)⌋ : ℚ) (1000 : ℚ) = 1000
    rw [floor_base_tenth]
    norm_num
  · show americanOddsToDecimal a = 100 / (-a) + 1
    unfold americanOddsToDecimal
    rw [if_neg (by linarith : ¬ a = 0), if_neg (by linarith : ¬ a > 0),
      abs_of_neg ha0]

theorem calculateMatchPointsFromAmerican_pos (a : ℚ) (ha : 5 < a) :
    (calculateMatchPointsFromAmerican a 1000).favorite_points = 1000 ∧
    (calculateMatchPointsFromAmerican a 1000).underdog_points
        = max 100 (⌊10 * a⌋ : ℚ) ∧
    (calculateMatchPointsFromAmerican a 1000).odds_ratio = a / 100 + 1 := by
  have ha0 : 0 < a := by linarith
  have hcond : ¬ (a = 0 ∨ |a| ≤ 5) := by
    rw [abs_of_pos ha0]
    push_neg
    exact ⟨by linarith, by linarith⟩
  unfold calculateMatchPointsFromAmerican
  rw [if_neg hcond, if_neg (by linarith : ¬ a < 0)]
  refine ⟨?_, ?_, ?_⟩
  · show max (⌊(1000:ℚ) * (1/10)⌋ : ℚ) (1000 : ℚ) = 1000
    rw [floor_base_tenth]
    norm_num
  · show max (⌊(1000:ℚ) * (1/10)⌋ : ℚ)
        (⌊(1 - americanOddsToImpliedProbability a) * 1000 /
          americanOddsToImpliedProbability a⌋ : ℚ)
      = max 100 (⌊10 * a⌋ : ℚ)
    rw [balancedExpr_pos a ha0, floor_base_tenth]
    norm_num
  · show americanOddsToDecimal a = a / 100 + 1
    unfold americanOddsToDecimal
    rw [if_neg (by linarith : ¬ a = 0), if_pos (by linarith : a > 0)]

/-- C6: every result of the ratio rule has both point values at least
the 50-point floor and underdog ≥ favorite when the returned odds ratio
exceeds 1; every result of the balanced rule at basePoints 1000 on
valid odds (0 or 100 ≤ |o| ≤ 10000) has both values at least
`⌊1000 * 0.1⌋ = 100` and underdog ≥ favorite when the returned odds
ratio exceeds 1. -/
theorem c6_match_points_invariants :
    (∀ r : ℚ,
      50 ≤ (calculateMatchPoints r).favorite_points ∧
      50 ≤ (calculateMatchPoints r).underdog_points ∧
      (1 < (calculateMatchPoints r).odds_ratio →
        (calculateMatchPoints r).favorite_points ≤
          (calculateMatchPoints r).underdog_points)) ∧
    (∀ o : ℤ, o = 0 ∨ (100 ≤ |o| ∧ |o| ≤ 10000) →
      100 ≤ (calculateMatchPointsFromAmerican (o : ℚ) 1000).favorite_points ∧
      100 ≤ (calculateMatchPointsFromAmerican (o : ℚ) 1000).underdog_points ∧
      (1 < (calculateMatchPointsFromAmerican (o : ℚ) 1000).odds_ratio →
        (calculateMatchPointsFromAmerican (o : ℚ) 1000).favorite_points ≤
          (calculateMatchPointsFromAmerican (o : ℚ) 1000).underdog_points)) := by
  constructor
  · intro r
    have hn : (1 : ℚ) ≤ max 1 r := le_max_left 1 r
    have hpos : (0 : ℚ) < max 1 r := by linarith
    refine ⟨le_max_left 50 _, by norm_num [calculateMatchPoints], ?_⟩
    intro _
    show max 50 (⌊1000 / max 1 r⌋ : ℚ) ≤ 1000
    refine max_le (by norm_num) ?_
    have h1 : (1000 : ℚ) / max 1 r ≤ 1000 := by
      rw [div_le_iff₀ hpos]
      nlinarith
    have h2 : ⌊(1000 : ℚ) / max 1 r⌋ ≤ ⌊(1000 : ℚ)⌋ := Int.floor_le_floor h1
    have h3 : ⌊(1000 : ℚ)⌋ = 1000 := by
      rw [show ((1000 : ℚ)) = ((1000 : ℤ) : ℚ) by norm_num, Int.floor_intCast]
    exact_mod_cast h3 ▸ h2
  · intro o ho
    rcases ho with rfl | ⟨h100, h10000⟩
    · have hf : (calculateMatchPointsFromAmerican ((0 : ℤ) : ℚ) 1000).favorite_points = 1000 := rfl
      have hu : (calculateMatchPointsFromAmerican ((0 : ℤ) : ℚ) 1000).underdog_points = 1000 := rfl
      refine ⟨by rw [hf]; norm_num, by rw [hu]; norm_num, ?_⟩
      intro hr
      have : (calculateMatchPointsFromAmerican ((0 : ℤ) : ℚ) 1000).odds_ratio = 1 := rfl
      rw [this] at hr
      norm_num at hr
    · rcases le_or_lt 0 o with hsign | hsign
      · have ho100 : 100 ≤ o := by rwa [abs_of_nonneg hsign] at h100
        have ha : (5 : ℚ) < (o : ℚ) := by
          have : (100 : ℚ) ≤ (o : ℚ) := by exact_mod_cast ho100
          linarith
        obtain ⟨hf, hu, _⟩ := calculateMatchPointsFromAmerican_pos (o : ℚ) ha
        rw [hf, hu]
        have hfl : (1000 : ℤ) ≤ ⌊10 * (o : ℚ)⌋ := by
          rw [Int.le_floor]
          push_cast
          have : (100 : ℚ) ≤ (o : ℚ) := by exact_mod_cast ho100
          linarith
        have hfl' : (1000 : ℚ) ≤ (⌊10 * (o : ℚ)⌋ : ℚ) := by exact_mod_cast hfl
        refine ⟨by norm_num, le_max_of_le_left (by norm_num), ?_⟩
        intro _
        exact le_max_of_le_right hfl'
      · have ho100 : o ≤ -100 := by
          rw [abs_of_neg hsign] at h100
          omega
        have ha : (o : ℚ) < -5 := by
          have : (o : ℚ) ≤ -100 := by exact_mod_cast ho100
          linarith
        obtain ⟨hf, hu, _⟩ := calculateMatchPointsFromAmerican_neg (o : ℚ) ha
        rw [hf, hu]
        have hM : (100 : ℚ) ≤ -(o : ℚ) := by
          have : (o : ℚ) ≤ -100 := by exact_mod_cast ho100
          linarith
        have hk : ⌊(100000 : ℚ) / (-(o : ℚ))⌋ ≤ 1000 := by
          have hdiv : (100000 : ℚ) / (-(o : ℚ)) ≤ 1000 := by
            rw [div_le_iff₀ (by linarith : (0 : ℚ) < -(o : ℚ))]
            linarith
          have := Int.floor_le_floor hdiv
          rwa [show ⌊(1000 : ℚ)⌋ = 1000 by
            rw [show ((1000 : ℚ)) = ((1000 : ℤ) : ℚ) by norm_num, Int.floor_intCast]] at this
        have hk' : ((⌊(100000 : ℚ) / (-(o : ℚ))⌋ : ℤ) : ℚ) ≤ 1000 := by exact_mod_cast hk
        refine ⟨le_max_left 100 _, by norm_num, ?_⟩
        intro _
        exact max_le (by norm_num) hk'

/-- C6 witness: the balanced-rule invariants at the concrete valid odds
-150. -/
theorem c6_match_points_invariants_witness :
    100 ≤ (calculateMatchPointsFromAmerican ((-150 : ℤ) : ℚ) 1000).favorite_points ∧
    100 ≤ (calculateMatchPointsFromAmerican ((-150 : ℤ) : ℚ) 1000).underdog_points ∧
    (1 < (calculateMatchPointsFromAmerican ((-150 : ℤ) : ℚ) 1000).odds_ratio →
      (calculateMatchPointsFromAmerican ((-150 : ℤ) : ℚ) 1000).favorite_points ≤
        (calculateMatchPointsFromAmerican ((-150 : ℤ) : ℚ) 1000).underdog_points) :=
  c6_match_points_invariants.2 (-150) (by norm_num)

/-- C4 counterexample: the round trip is NOT within ±1 at odds -100:
`americanOddsToDecimal (-100) = 2` falls in the `decimal ≥ 2` underdog
branch of `decimalToAmericanOdds`, which returns +100, a difference of
200. -/
theorem c4_counterexample :
    ¬ |decimalToAmericanOdds (americanOddsToDecimal (-100)) - (-100 : ℚ)| ≤ 1 := by
  norm_num [americanOddsToDecimal, decimalToAmericanOdds, jsRound, Rat.floor_def]

/-- C4 (amended): for every integer American odds o with o = 0 or
100 ≤ |o| ≤ 10000 — except o = -100, where the round trip returns
+100 — `decimalToAmericanOdds (americanOddsToDecimal o)` differs from o
by at most 1 (it is in fact exact). -/
theorem c4_odds_roundtrip (o : ℤ) (h : o = 0 ∨ (100 ≤ |o| ∧ |o| ≤ 10000))
    (hne : o ≠ -100) :
    |decimalToAmericanOdds (americanOddsToDecimal (o : ℚ)) - (o : ℚ)| ≤ 1 := by
  have key : decimalToAmericanOdds (americanOddsToDecimal (o : ℚ)) = (o : ℚ) := by
    rcases h with rfl | ⟨h100, h10000⟩
    · norm_num [americanOddsToDecimal, decimalToAmericanOdds]
    · rcases le_or_lt 0 o with hsign | hsign
      · have ho100 : 100 ≤ o := by rwa [abs_of_nonneg hsign] at h100
        have ha : (100 : ℚ) ≤ (o : ℚ) := by exact_mod_cast ho100
        have hd : americanOddsToDecimal (o : ℚ) = (o : ℚ) / 100 + 1 := by
          unfold americanOddsToDecimal
          rw [if_neg (by linarith : ¬ (o : ℚ) = 0), if_pos (by linarith : (o : ℚ) > 0)]
        rw [hd]
        unfold decimalToAmericanOdds
        rw [if_neg, if_pos]
        · rw [show ((o : ℚ) / 100 + 1 - 1) * 100 = (o : ℚ) by field_simp,
            jsRound_intCast]
        · rw [ge_iff_le, show (2 : ℚ) = 1 + 1 by norm_num]
          have : (1 : ℚ) ≤ (o : ℚ) / 100 := by
            rw [le_div_iff₀ (by norm_num : (0 : ℚ) < 100)]
            linarith
          linarith
        · intro hc
          have : (o : ℚ) / 100 = 0 := by linarith
          rw [div_eq_zero_iff] at this
          rcases this with h0 | h0 <;> [linarith; norm_num at h0]
      · have ho100 : o ≤ -100 := by
          rw [abs_of_neg hsign] at h100
          omega
        have ho101 : o ≤ -101 := by
          rcases lt_or_eq_of_le ho100 with h | h
          · omega
          · exact absurd h hne
        have ha : (o : ℚ) ≤ -101 := by exact_mod_cast ho101
        have hpos : (0 : ℚ) < -(o : ℚ) := by linarith
        have hd : americanOddsToDecimal (o : ℚ) = 100 / (-(o : ℚ)) + 1 := by
          unfold americanOddsToDecimal
          rw [if_neg (by linarith : ¬ (o : ℚ) = 0),
            if_neg (by linarith : ¬ (o : ℚ) > 0),
            abs_of_neg (by linarith : (o : ℚ) < 0)]
        rw [hd]
        unfold decimalToAmericanOdds
        rw [if_neg, if_neg]
        · rw [show (-100 : ℚ) / (100 / (-(o : ℚ)) + 1 - 1) = (o : ℚ) by
            field_simp, jsRound_intCast]
        · rw [ge_iff_le, show (2 : ℚ) = 1 + 1 by norm_num]
          have : 100 / (-(o : ℚ)) < 1 := by
            rw [div_lt_one hpos]
            linarith
          intro hc
          linarith
        · intro hc
          have h0 : 100 / (-(o : ℚ)) = 0 := by linarith
          rw [div_eq_zero_iff] at h0
          rcases h0 with h0 | h0 <;> [norm_num at h0; linarith]
  rw [key]
  norm_num

/-- C4 witness: the round trip is exact at the concrete valid odds
-150. -/
theorem c4_odds_roundtrip_witness :
    |decimalToAmericanOdds (americanOddsToDecimal ((-150 : ℤ) : ℚ)) - ((-150 : ℤ) : ℚ)| ≤ 1 :=
  c4_odds_roundtrip (-150) (by norm_num) (by norm_num)

/-- C1 counterexample: at odds -2000 (within the claimed domain
5 < |o| ≤ 10000) the 10%-of-base minimum-points floor lifts the
favorite to 100 points and the balance error is 1000/21 ≈ 47.6 > 2. -/
theorem c1_counterexample :
    ¬ |claimFavoriteWinProbability (-2000) *
          (calculateMatchPointsFromAmerican ((-2000 : ℤ) : ℚ) 1000).favorite_points -
        claimUnderdogWinProbability (-2000) *
          (calculateMatchPointsFromAmerican ((-2000 : ℤ) : ℚ) 1000).underdog_points| ≤ 2 := by
  obtain ⟨hf, hu, _⟩ :=
    calculateMatchPointsFromAmerican_neg ((-2000 : ℤ) : ℚ) (by norm_num)
  rw [hf, hu]
  norm_num [claimFavoriteWinProbability, claimUnderdogWinProbability, Rat.floor_def]
  rw [abs_of_pos (by norm_num : (0 : ℚ) < 1000 / 21)]
  norm_num

/-- C1 (amended): the balance equation
`|favoriteWinProbability * favorite_points -
  underdogWinProbability * underdog_points| ≤ 2` holds for
basePoints = 1000 on the sub-domain 10 ≤ o ≤ 10000 or
-1022 ≤ o ≤ -6 of the claimed 5 < |o| ≤ 10000; outside it (positive
o ≤ 9 and negative o ≤ -1023) the 10%-of-base minimum-points floor
overrides the balanced value and the error exceeds 2. -/
theorem c1_balanced_rule_balance (o : ℤ)
    (h : (10 ≤ o ∧ o ≤ 10000) ∨ (-1022 ≤ o ∧ o ≤ -6)) :
    |claimFavoriteWinProbability o *
        (calculateMatchPointsFromAmerican (o : ℚ) 1000).favorite_points -
      claimUnderdogWinProbability o *
        (calculateMatchPointsFromAmerican (o : ℚ) 1000).underdog_points| ≤ 2 := by
  rcases h with ⟨h1, h2⟩ | ⟨h1, h2⟩
  · -- positive odds: the computed underdog points are exactly 10·o and
    -- the balance is exact
    have ha10 : (10 : ℚ) ≤ (o : ℚ) := by exact_mod_cast h1
    obtain ⟨hf, hu, _⟩ :=
      calculateMatchPointsFromAmerican_pos (o : ℚ) (by linarith)
    rw [hf, hu]
    have hfl : ⌊(10 : ℚ) * (o : ℚ)⌋ = 10 * o := by
      rw [show (10 : ℚ) * (o : ℚ) = ((10 * o : ℤ) : ℚ) by push_cast; ring,
        Int.floor_intCast]
    have hmax : max (100 : ℚ) ((⌊(10 : ℚ) * (o : ℚ)⌋ : ℤ) : ℚ) = 10 * (o : ℚ) := by
      rw [hfl]
      push_cast
      exact max_eq_right (by linarith)
    rw [hmax]
    unfold claimFavoriteWinProbability claimUnderdogWinProbability
    rw [if_neg (by omega : ¬ o < 0), if_neg (by omega : ¬ o < 0)]
    have hden : (o : ℚ) + 100 ≠ 0 := by linarith
    have : (1 - 100 / ((o : ℚ) + 100)) * 1000 -
        100 / ((o : ℚ) + 100) * (10 * (o : ℚ)) = 0 := by
      field_simp
      ring
    rw [this]
    norm_num
  · -- negative odds: set M := -o and split on whether the floor binds
    have ho : o < 0 := by omega
    have hM1 : (6 : ℚ) ≤ -(o : ℚ) := by
      have : (o : ℚ) ≤ -6 := by exact_mod_cast h2
      linarith
    have hM2 : -(o : ℚ) ≤ 1022 := by
      have : (-1022 : ℚ) ≤ (o : ℚ) := by exact_mod_cast h1
      linarith
    have hMpos : (0 : ℚ) < -(o : ℚ) := by linarith
    have hMden : (0 : ℚ) < -(o : ℚ) + 100 := by linarith
    obtain ⟨hf, hu, _⟩ :=
      calculateMatchPointsFromAmerican_neg (o : ℚ) (by linarith)
    rw [hf, hu]
    unfold claimFavoriteWinProbability claimUnderdogWinProbability
    rw [if_pos ho, if_pos ho, abs_of_neg (show (o : ℚ) < 0 by exact_mod_cast ho)]
    have hk1 : ((⌊(100000 : ℚ) / (-(o : ℚ))⌋ : ℤ) : ℚ) ≤ 100000 / (-(o : ℚ)) :=
      Int.floor_le _
    have hk2 : (100000 : ℚ) / (-(o : ℚ)) < (⌊(100000 : ℚ) / (-(o : ℚ))⌋ : ℤ) + 1 :=
      Int.lt_floor_add_one _
    set k : ℤ := ⌊(100000 : ℚ) / (-(o : ℚ))⌋ with hkdef
    have hup : (k : ℚ) * (-(o : ℚ)) ≤ 100000 := by
      rw [← le_div_iff₀ hMpos]
      exact hk1
    have hlow : (100000 : ℚ) < ((k : ℚ) + 1) * (-(o : ℚ)) := by
      rw [← div_lt_iff₀ hMpos]
      linarith
    rcases le_or_lt (-(o : ℚ)) 1000 with hcase | hcase
    · -- floor does not bind: favorite points are ⌊100000 / M⌋
      have hk100 : (100 : ℚ) ≤ (k : ℚ) := by
        have : (100 : ℤ) ≤ k := by
          rw [hkdef, Int.le_floor]
          rw [le_div_iff₀ hMpos]
          push_cast
          linarith
        exact_mod_cast this
      rw [max_eq_right hk100]
      have heq : -(o : ℚ) / (-(o : ℚ) + 100) * (k : ℚ) -
          (1 - -(o : ℚ) / (-(o : ℚ) + 100)) * 1000 =
          ((-(o : ℚ)) * (k : ℚ) - 100000) / (-(o : ℚ) + 100) := by
        field_simp
        ring
      rw [heq, abs_le]
      constructor
      · rw [le_div_iff₀ hMden]
        nlinarith
      · rw [div_le_iff₀ hMden]
        nlinarith
    · -- floor binds: favorite points are clamped to 100
      have hk99 : (k : ℚ) ≤ 100 := by
        have : k < 100 := by
          rw [hkdef, Int.floor_lt]
          rw [div_lt_iff₀ hMpos]
          push_cast
          linarith
        have : k ≤ 99 := by omega
        have hq : ((k : ℤ) : ℚ) ≤ ((99 : ℤ) : ℚ) := by exact_mod_cast this
        push_cast at hq
        linarith
      rw [max_eq_left hk99]
      have heq : -(o : ℚ) / (-(o : ℚ) + 100) * 100 -
          (1 - -(o : ℚ) / (-(o : ℚ) + 100)) * 1000 =
          (100 * (-(o : ℚ)) - 100000) / (-(o : ℚ) + 100) := by
        field_simp
        ring
      rw [heq, abs_le]
      constructor
      · rw [le_div_iff₀ hMden]
        nlinarith
      · rw [div_le_iff₀ hMden]
        nlinarith

/-- C1 witness: the balance equation holds at the concrete odds -150,
where favorite points are 666 and underdog points 1000. -/
theorem c1_balanced_rule_balance_witness :
    |claimFavoriteWinProbability (-150) *
        (calculateMatchPointsFromAmerican ((-150 : ℤ) : ℚ) 1000).favorite_points -
      claimUnderdogWinProbability (-150) *
        (calculateMatchPointsFromAmerican ((-150 : ℤ) : ℚ) 1000).underdog_points| ≤ 2 :=
  c1_balanced_rule_balance (-150) (by norm_num)

end Pickem
